import Mathlib

/-!
Verification development for the Clue2 real-time assistant pipeline.

The repository's core is an Electron main-process orchestration layer
(`src/utils/gemini.js`): macOS system-audio capture sliced into fixed-size
PCM frames, stereo-to-mono downmixing, transcript deduplication, turn-based
conversation bookkeeping, a response-worthiness classifier, a Cerebras reply
orchestrator, and a chained-promise text-to-speech queue
(`src/utils/cartesia.js`).

The repository holds two copies of the orchestration layer: the live one
(with the `shouldGenerateResponse` classifier, averaging downmix and
source-tagged responses) and a stale near-duplicate (left-channel-only
downmix, no classifier, manual text routed through the transcript handler).
Definitions below follow the live copy; the `Legacy` namespace embeds the
two functions of the stale copy that differ and are cited by a claim.

Strings are embedded with JavaScript semantics spelled out over `List Char`
(`jsTrim`, `words`, `jsToLower`); byte buffers are `List Nat` of byte
values with explicit little-endian signed 16-bit decode/encode; the
asynchronous pieces (reply generation, TTS synthesis) are driven by
explicit outcome parameters, and renderer IPC sends are collected as an
effect list.
-/

namespace Clue2

/-! ## JavaScript string helpers -/

/-- JS `String#trim`: drop leading and trailing whitespace. -/
def jsTrim (s : String) : String :=
  String.mk (((s.data.dropWhile Char.isWhitespace).reverse.dropWhile Char.isWhitespace).reverse)

/-- Accumulator-based splitter behind `words`. -/
def wordsAux : List Char → List Char → List String
  | [], acc => if acc = [] then [] else [String.mk acc.reverse]
  | c :: cs, acc =>
    if c.isWhitespace then
      if acc = [] then wordsAux cs [] else String.mk acc.reverse :: wordsAux cs []
    else wordsAux cs (c :: acc)

/-- JS `s.split(/\s+/).filter(w => w.length > 0)`: maximal non-whitespace runs. -/
def words (s : String) : List String := wordsAux s.data []

/-- JS `raw.replace(/\s+/g, ' ').trim()`: collapse whitespace runs to single
spaces and trim, as done at the top of `handleCartesiaTranscript`. -/
def cleanTranscript (raw : String) : String := String.intercalate " " (words raw)

/-- JS `String#toLowerCase` (ASCII case fold). -/
def jsToLower (s : String) : String := String.mk (s.data.map Char.toLower)

/-! ## Signed 16-bit little-endian PCM codec (`Buffer.readInt16LE` / `writeInt16LE`) -/

/-- `Buffer.readInt16LE`: two bytes, little endian, two's complement. -/
def readInt16LE (b0 b1 : Nat) : Int :=
  if b0 + 256 * b1 < 32768 then ((b0 + 256 * b1 : Nat) : Int)
  else ((b0 + 256 * b1 : Nat) : Int) - 65536

/-- `Buffer.writeInt16LE`: low byte first, value taken mod 2^16. -/
def writeInt16LE (v : Int) : Nat × Nat :=
  ((v % 65536).toNat % 256, (v % 65536).toNat / 256)

/-- `convertStereoToMono` (live copy): for each interleaved stereo sample pair,
write `Math.max(-32768, Math.min(32767, Math.round((left + right) / 2)))`.
`Math.round(x)` is `⌊x + 1/2⌋`, so `Math.round((l+r)/2) = ⌊(l+r+1)/2⌋ = (l+r+1).fdiv 2`.
The JS loop runs `i < floor(buf.length / 4)` times; trailing bytes are dropped. -/
def convertStereoToMono : List Nat → List Nat
  | b0 :: b1 :: b2 :: b3 :: rest =>
    let l := readInt16LE b0 b1
    let r := readInt16LE b2 b3
    let m := max (-32768 : Int) (min 32767 ((l + r + 1).fdiv 2))
    (writeInt16LE m).1 :: (writeInt16LE m).2 :: convertStereoToMono rest
  | _ => []

/-- Decode a mono byte stream into its 16-bit samples (2-byte groups). -/
def decodeSamples : List Nat → List Int
  | b0 :: b1 :: rest => readInt16LE b0 b1 :: decodeSamples rest
  | _ => []

/-- Decode an interleaved stereo byte stream into (left, right) sample pairs. -/
def decodePairs : List Nat → List (Int × Int)
  | b0 :: b1 :: b2 :: b3 :: rest =>
    (readInt16LE b0 b1, readInt16LE b2 b3) :: decodePairs rest
  | _ => []

/-! ## Frame assembler (`startMacOSAudioCapture` stdout handler) -/

/-- The `while (audioBuffer.length >= CHUNK_SIZE)` loop: slice frames of `n`
bytes off the front of the buffer until fewer than `n` bytes remain. -/
def sliceFrames (n : Nat) (buf : List Nat) : List (List Nat) × List Nat :=
  if _h : 0 < n ∧ n ≤ buf.length then
    let res := sliceFrames n (buf.drop n)
    (buf.take n :: res.1, res.2)
  else
    ([], buf)
termination_by buf.length
decreasing_by
  simp only [List.length_drop]
  omega

/-- One `stdout.on('data')` callback body: append the chunk, slice frames, then
apply the overflow guard `if (audioBuffer.length > maxBufferSize) slice(-maxBufferSize)`. -/
def applyChunk (n maxB : Nat) (buf data : List Nat) : List (List Nat) × List Nat :=
  let res := sliceFrames n (buf ++ data)
  (res.1, if res.2.length > maxB then res.2.drop (res.2.length - maxB) else res.2)

/-- Run the capture callback over a whole sequence of stdout chunks, starting
from `Buffer.alloc(0)`, collecting every emitted frame in order. -/
def runCapture (n maxB : Nat) (chunks : List (List Nat)) : List (List Nat) × List Nat :=
  chunks.foldl
    (fun acc data =>
      let res := applyChunk n maxB acc.2 data
      (acc.1 ++ res.1, res.2))
    ([], [])

/-- `CHUNK_SIZE = Math.round(24000 * 2 * 2 * 0.1)` with the default sample
rate and channel count. -/
def CHUNK_SIZE : Nat := 9600

/-- `maxBufferSize = OUTPUT_SAMPLE_RATE * BYTES_PER_SAMPLE * CHANNELS` with defaults. -/
def maxBufferSize : Nat := 96000

/-! ## Synthesis queue (`queueTtsSynthesis` and the `ttsQueue` promise chain) -/

/-- `queueTtsSynthesis`: trim the text; a no-op when the trimmed length is
below 12, otherwise append the trimmed text to the pending chain. -/
def ttsEnqueue (q : List String) (text : String) : List String :=
  let trimmed := jsTrim text
  if trimmed.length < 12 then q else q ++ [trimmed]

/-- Observable events of the synthesis chain. -/
inductive TtsEvent where
  | started (t : String)
  | succeeded (t : String)
  | failed (t : String)
deriving DecidableEq, Repr

/-- Trace of one queued task: it starts, then settles according to the
synthesizer `outcome`; its body wraps the synthesis call in `try/catch`, so a
failure is recorded and the task still completes normally. -/
def taskTrace (outcome : String → Bool) (t : String) : List TtsEvent :=
  [.started t, if outcome t then .succeeded t else .failed t]

/-- Semantics of the `ttsQueue = ttsQueue.catch(() => {}).then(task)` chain:
each task awaits the settlement of the previous chain (whose rejections are
swallowed by the `catch`), so tasks run one after another in enqueue order. -/
def runChain (outcome : String → Bool) : List String → List TtsEvent
  | [] => []
  | t :: rest => taskTrace outcome t ++ runChain outcome rest

/-- The texts whose tasks started, in trace order. -/
def startedTexts (trace : List TtsEvent) : List String :=
  trace.filterMap fun e =>
    match e with
    | .started t => some t
    | _ => none

/-! ## Conversation state and the orchestration layer -/

/-- `{timestamp, transcription, ai_response}` as built by `saveConversationTurn`. -/
structure ConversationTurn where
  timestamp : Nat
  transcription : String
  ai_response : String
deriving DecidableEq, Repr

/-- The module-level mutable state of `gemini.js` that the embedded functions
touch: session id, conversation log, dedup state, session flags, and the
pending TTS chain (as the list of queued texts). -/
structure GeminiState where
  currentSessionId : Option String
  conversationHistory : List ConversationTurn
  lastProcessedTranscript : String
  recentTranscripts : List String
  active : Bool
  autoResponseEnabled : Bool
  ttsQueue : List String
deriving DecidableEq, Repr

/-- Payload of the `save-conversation-turn` renderer event. -/
structure SaveEvent where
  sessionId : Option String
  turn : ConversationTurn
  fullHistory : List ConversationTurn
deriving DecidableEq, Repr

/-- Renderer sends and external calls performed by the orchestration layer,
in program order. -/
inductive Effect where
  | updateStatus (s : String)
  | generateReply (context : String)
  | updateResponse (reply : String)
  | updateResponseChat (reply : String)
  | saveTurn (ev : SaveEvent)
  | transcriptCaptured (t : String) (ts : Nat)
  | ttsEnqueued (t : String)
deriving DecidableEq, Repr

/-- Result of the awaited `cerebrasService.generateReply` call: a reply string
(possibly empty — JS `!reply` also covers `''`), or a rejection. -/
inductive GenOutcome where
  | ok (reply : String)
  | err
deriving DecidableEq, Repr

/-- `initializeNewSession`: fresh id from `Date.now().toString()`, empty
history, cleared dedup state. -/
def initializeNewSession (now : Nat) (st : GeminiState) : GeminiState :=
  { st with
    currentSessionId := some (Nat.repr now)
    conversationHistory := []
    lastProcessedTranscript := ""
    recentTranscripts := [] }

/-- `saveConversationTurn`: initialize a session if none exists, append the
trimmed turn, and emit the `save-conversation-turn` event with the session id
and the full history. -/
def saveConversationTurn (now : Nat) (st : GeminiState) (transcription aiResponse : String) :
    GeminiState × SaveEvent :=
  let st0 := if st.currentSessionId.isNone then initializeNewSession now st else st
  let turn : ConversationTurn :=
    { timestamp := now, transcription := jsTrim transcription, ai_response := jsTrim aiResponse }
  let history := st0.conversationHistory ++ [turn]
  let st1 := { st0 with conversationHistory := history }
  (st1, { sessionId := st1.currentSessionId, turn := turn, fullHistory := history })

/-- The `trivialPhrases` list of `shouldGenerateResponse`. -/
def trivialPhrases : List String :=
  ["ok", "yes", "no", "uh", "um", "well", "right", "alright", "hello", "hi",
   "thank you", "thanks", "bye", "goodbye", "see you", "next", "continue",
   "ready", "go", "start", "stop", "pause", "time", "minutes", "seconds",
   "hour", "late", "early", "good", "bad", "fine", "great", "excellent"]

/-- `shouldGenerateResponse`: manual input always qualifies; otherwise the
classifier runs auto-response gate, trivial-phrase check (word count ≤ 3),
minimum length 15, then the two regex families. The regex tests
(`announcementPatterns` over the raw transcript, `acknowledgmentPatterns`
over the trimmed transcript) are abstracted as Boolean predicates `announce`
and `ack`, since the claims settled here do not depend on their value. -/
def shouldGenerateResponse (announce ack : String → Bool)
    (autoResponseEnabled : Bool) (transcript : String) (isManual : Bool) : Bool :=
  if isManual then true
  else if autoResponseEnabled = false then false
  else if (words transcript).length ≤ 3 && trivialPhrases.contains (jsTrim (jsToLower transcript)) then
    false
  else if transcript.length < 15 then false
  else if announce transcript then false
  else if ack (jsTrim transcript) then false
  else true

/-- The context string passed to the generator: the transcript, with the web
search summary appended when one is supplied. -/
def cerebrasContext (transcript : String) (searchSummary : Option String) : String :=
  match searchSummary with
  | some s => transcript ++ "\n\nWeb search context:\n" ++ s
  | none => transcript

/-- `respondWithCerebras` (live copy): sends a `Responding...` status, awaits
the generator (`outcome`); on falsy reply resets the status and stops; on
success forwards the reply (tagged for `source: 'chat'`), saves a
conversation turn for `(transcript, reply)`, queues TTS, and resets status. -/
def respondWithCerebras (now : Nat) (outcome : GenOutcome) (st : GeminiState)
    (transcript : String) (searchSummary : Option String) (source : Option String) :
    GeminiState × List Effect :=
  let pre : List Effect :=
    [.updateStatus "Responding...", .generateReply (cerebrasContext transcript searchSummary)]
  match outcome with
  | .err => (st, pre ++ [.updateStatus "Listening..."])
  | .ok reply =>
    if reply = "" then (st, pre ++ [.updateStatus "Listening..."])
    else
      let respEv : Effect :=
        if source = some "chat" then .updateResponseChat reply else .updateResponse reply
      let saved := saveConversationTurn now st transcript reply
      let st2 := { saved.1 with ttsQueue := ttsEnqueue saved.1.ttsQueue reply }
      let ttsEffects : List Effect :=
        if (jsTrim reply).length < 12 then [] else [.ttsEnqueued (jsTrim reply)]
      (st2, pre ++ [respEv, .saveTurn saved.2] ++ ttsEffects ++ [.updateStatus "Listening..."])

/-- The eviction step of `handleCartesiaTranscript`: take the first value of
the `Set` iterator and delete it; the JS `if (first)` guard skips the
deletion for a falsy — empty — oldest entry. -/
def evictOldest (recent : List String) : List String :=
  match recent with
  | [] => ([] : List String)
  | first :: rest => if first ≠ "" then rest else first :: rest

/-- Append the cleaned transcript after the conditional eviction. -/
def dedupInsert (recent : List String) (cleaned : String) : List String :=
  (if recent.length > 12 then evictOldest recent else recent) ++ [cleaned]

/-- The dedup bookkeeping performed on a processed transcript: window update
plus the new `lastProcessedTranscript` slot. -/
def gateUpdate (st : GeminiState) (cleaned : String) : GeminiState :=
  { st with
    recentTranscripts := dedupInsert st.recentTranscripts cleaned
    lastProcessedTranscript := cleaned }

/-- `handleCartesiaTranscript` (live copy): drop while inactive; clean; drop
empty or shorter than 4; drop duplicates of the last processed value or of
the dedup window; evict the oldest window entry when the window holds more
than 12; record the transcript as a turn, surface it, and invoke the
Cerebras responder only when `shouldGenerateResponse` qualifies it. -/
def handleCartesiaTranscript (announce ack : String → Bool) (now : Nat)
    (outcome : GenOutcome) (st : GeminiState) (rawTranscript : String) (isManual : Bool) :
    GeminiState × List Effect :=
  if st.active = false then (st, [])
  else
    let cleaned := cleanTranscript rawTranscript
    if cleaned = "" ∨ cleaned.length < 4 then (st, [])
    else if cleaned = st.lastProcessedTranscript then (st, [])
    else if st.recentTranscripts.contains cleaned then (st, [])
    else
      let saved := saveConversationTurn now (gateUpdate st cleaned) cleaned ""
      let effects0 : List Effect := [.saveTurn saved.2, .transcriptCaptured cleaned now]
      if shouldGenerateResponse announce ack saved.1.autoResponseEnabled cleaned isManual then
        let resp := respondWithCerebras now outcome saved.1 cleaned none none
        (resp.1, effects0 ++ resp.2)
      else (saved.1, effects0)

/-- Result shape of the IPC handlers (`{success, error?}`). -/
structure IpcResult where
  success : Bool
  error : Option String
deriving DecidableEq, Repr

namespace Legacy

/-- `handleCartesiaTranscript` of the stale orchestration copy: identical
gate and dedup logic, but no classifier and no `transcript-captured` event —
`respondWithCerebras` is always attempted for a processed transcript (its
copy sends the untagged `update-response`, i.e. `source = none`). -/
def handleCartesiaTranscript (now : Nat) (outcome : GenOutcome) (st : GeminiState)
    (rawTranscript : String) : GeminiState × List Effect :=
  if st.active = false then (st, [])
  else
    let cleaned := cleanTranscript rawTranscript
    if cleaned = "" ∨ cleaned.length < 4 then (st, [])
    else if cleaned = st.lastProcessedTranscript then (st, [])
    else if st.recentTranscripts.contains cleaned then (st, [])
    else
      let saved := saveConversationTurn now (gateUpdate st cleaned) cleaned ""
      let resp := respondWithCerebras now outcome saved.1 cleaned none none
      (resp.1, [.saveTurn saved.2] ++ resp.2)

/-- The `send-text-message` IPC handler of the stale copy: reject when no
session is active or the text is empty, otherwise await
`handleCartesiaTranscript(text, { isManual: true })` and report success. -/
def sendTextMessage (now : Nat) (outcome : GenOutcome) (st : GeminiState) (text : String) :
    GeminiState × IpcResult :=
  if st.active = false then (st, { success := false, error := some "No active session" })
  else if text = "" ∨ jsTrim text = "" then
    (st, { success := false, error := some "Invalid text message" })
  else
    let handled := handleCartesiaTranscript now outcome st text
    (handled.1, { success := true, error := none })

end Legacy

/-! ## Concrete driver and sample states used by witnesses and counterexamples -/

/-- Feed a list of raw final transcripts through `handleCartesiaTranscript`
(automatic source, generation rejecting), keeping only the state. -/
def submitTranscripts (subs : List String) (st : GeminiState) : GeminiState :=
  subs.foldl
    (fun s raw => (handleCartesiaTranscript (fun _ => false) (fun _ => false) 0 .err s raw false).1)
    st

/-- A freshly initialized active session (auto-response off). -/
def freshActiveState : GeminiState :=
  { currentSessionId := some "0"
    conversationHistory := []
    lastProcessedTranscript := ""
    recentTranscripts := []
    active := true
    autoResponseEnabled := false
    ttsQueue := [] }

/-- An active session whose log already holds the turn created by the
transcript gate for one qualifying transcript (empty reply). -/
def oneTurnState : GeminiState :=
  { currentSessionId := some "1"
    conversationHistory :=
      [{ timestamp := 5, transcription := "What is the answer to everything?", ai_response := "" }]
    lastProcessedTranscript := "What is the answer to everything?"
    recentTranscripts := ["What is the answer to everything?"]
    active := true
    autoResponseEnabled := true
    ttsQueue := [] }

/-- An active session that has just processed the transcript
`"Hello there everyone"`. -/
def dupState : GeminiState :=
  { currentSessionId := some "2"
    conversationHistory :=
      [{ timestamp := 3, transcription := "Hello there everyone", ai_response := "" }]
    lastProcessedTranscript := "Hello there everyone"
    recentTranscripts := ["Hello there everyone"]
    active := true
    autoResponseEnabled := true
    ttsQueue := [] }

/-- A state from before any session was initialized (stale dedup leftovers,
no session id). -/
def noSessionState : GeminiState :=
  { currentSessionId := none
    conversationHistory := []
    lastProcessedTranscript := "stale value"
    recentTranscripts := ["stale value"]
    active := true
    autoResponseEnabled := true
    ttsQueue := [] }

/-- Thirteen distinct qualifying transcripts. -/
def thirteenTranscripts : List String :=
  ["word01", "word02", "word03", "word04", "word05", "word06", "word07",
   "word08", "word09", "word10", "word11", "word12", "word13"]

/-! ## Supporting lemmas: PCM codec -/

/-- Decoding after encoding restores any in-range 16-bit value. -/
theorem readInt16LE_writeInt16LE (v : Int) (h1 : -32768 ≤ v) (h2 : v ≤ 32767) :
    readInt16LE (writeInt16LE v).1 (writeInt16LE v).2 = v := by
  unfold readInt16LE writeInt16LE
  simp only []
  omega

/-- Any two true bytes decode to an in-range 16-bit value. -/
theorem readInt16LE_range (b0 b1 : Nat) (h0 : b0 < 256) (h1 : b1 < 256) :
    -32768 ≤ readInt16LE b0 b1 ∧ readInt16LE b0 b1 ≤ 32767 := by
  unfold readInt16LE
  omega

theorem convertStereoToMono_cons (b0 b1 b2 b3 : Nat) (rest : List Nat) :
    convertStereoToMono (b0 :: b1 :: b2 :: b3 :: rest) =
      (writeInt16LE (max (-32768 : Int) (min 32767
        ((readInt16LE b0 b1 + readInt16LE b2 b3 + 1).fdiv 2)))).1 ::
      (writeInt16LE (max (-32768 : Int) (min 32767
        ((readInt16LE b0 b1 + readInt16LE b2 b3 + 1).fdiv 2)))).2 ::
      convertStereoToMono rest := rfl

theorem decodeSamples_cons (b0 b1 : Nat) (rest : List Nat) :
    decodeSamples (b0 :: b1 :: rest) = readInt16LE b0 b1 :: decodeSamples rest := rfl

theorem decodePairs_cons (b0 b1 b2 b3 : Nat) (rest : List Nat) :
    decodePairs (b0 :: b1 :: b2 :: b3 :: rest) =
      (readInt16LE b0 b1, readInt16LE b2 b3) :: decodePairs rest := rfl

/-- The clamped half-up rounding of the mean of two in-range samples is a
nearest integer to the mean and stays in range. -/
theorem downmix_sample_spec (l r : Int) (hl1 : -32768 ≤ l) (hl2 : l ≤ 32767)
    (hr1 : -32768 ≤ r) (hr2 : r ≤ 32767) :
    (2 * (max (-32768 : Int) (min 32767 ((l + r + 1).fdiv 2))) - (l + r)).natAbs ≤ 1 ∧
    -32768 ≤ max (-32768 : Int) (min 32767 ((l + r + 1).fdiv 2)) ∧
    max (-32768 : Int) (min 32767 ((l + r + 1).fdiv 2)) ≤ 32767 := by
  have hfd : (l + r + 1).fdiv 2 = (l + r + 1) / 2 := Int.fdiv_eq_ediv _ (by omega)
  rw [hfd]
  omega

/-- Sample-level characterisation of `convertStereoToMono`: positionally, each
output sample is within rounding distance 1/2 of the mean of the input pair
(`|2·m - (l+r)| ≤ 1`) and lies in the signed 16-bit range. -/
theorem convertStereoToMono_forall (buf : List Nat) (hb : ∀ b ∈ buf, b < 256) :
    List.Forall₂
      (fun m p => (2 * m - (p.1 + p.2)).natAbs ≤ 1 ∧ -32768 ≤ m ∧ m ≤ 32767)
      (decodeSamples (convertStereoToMono buf)) (decodePairs buf) := by
  match buf with
  | b0 :: b1 :: b2 :: b3 :: rest =>
    have h0 : b0 < 256 := hb b0 (by simp)
    have h1 : b1 < 256 := hb b1 (by simp)
    have h2 : b2 < 256 := hb b2 (by simp)
    have h3 : b3 < 256 := hb b3 (by simp)
    have hl := readInt16LE_range b0 b1 h0 h1
    have hr := readInt16LE_range b2 b3 h2 h3
    have hrt := readInt16LE_writeInt16LE
      (max (-32768 : Int) (min 32767 ((readInt16LE b0 b1 + readInt16LE b2 b3 + 1).fdiv 2)))
      (by omega) (by omega)
    rw [convertStereoToMono_cons, decodeSamples_cons, decodePairs_cons]
    constructor
    · rw [hrt]
      exact downmix_sample_spec _ _ hl.1 hl.2 hr.1 hr.2
    · exact convertStereoToMono_forall rest (fun b h => hb b (by simp [h]))
  | [] => exact List.Forall₂.nil
  | [b0] => exact List.Forall₂.nil
  | [b0, b1] => exact List.Forall₂.nil
  | [b0, b1, b2] => exact List.Forall₂.nil

/-! ## Supporting lemmas: frame assembler -/

/-- The slicing loop: concatenating the emitted frames with the residual
restores the buffer; the residual is shorter than a frame; every frame has
exactly `n` bytes; the number of frames is `⌊length / n⌋`. -/
theorem sliceFrames_spec (n : Nat) (hn : 0 < n) (buf : List Nat) :
    (sliceFrames n buf).1.flatten ++ (sliceFrames n buf).2 = buf ∧
    (sliceFrames n buf).2.length < n ∧
    (∀ f ∈ (sliceFrames n buf).1, f.length = n) ∧
    (sliceFrames n buf).1.length = buf.length / n := by
  suffices H : ∀ (k : Nat) (b : List Nat), b.length ≤ k →
      (sliceFrames n b).1.flatten ++ (sliceFrames n b).2 = b ∧
      (sliceFrames n b).2.length < n ∧
      (∀ f ∈ (sliceFrames n b).1, f.length = n) ∧
      (sliceFrames n b).1.length = b.length / n from H buf.length buf le_rfl
  intro k
  induction k with
  | zero =>
    intro b hk
    have hc : ¬ (0 < n ∧ n ≤ b.length) := by omega
    rw [sliceFrames]
    simp only [dif_neg hc]
    refine ⟨by simp, by omega, by simp, ?_⟩
    exact (Nat.div_eq_of_lt (by omega)).symm
  | succ k ih =>
    intro b hk
    rw [sliceFrames]
    by_cases hc : n ≤ b.length
    · have hrec := ih (b.drop n) (by simp only [List.length_drop]; omega)
      simp only [dif_pos (And.intro hn hc)]
      refine ⟨?_, hrec.2.1, ?_, ?_⟩
      · simp only [List.flatten_cons, List.append_assoc, hrec.1, List.take_append_drop]
      · intro f hf
        rcases List.mem_cons.mp hf with h | h
        · subst h; simp only [List.length_take]; omega
        · exact hrec.2.2.1 f h
      · simp only [List.length_cons, hrec.2.2.2, List.length_drop]
        conv_rhs => rw [Nat.div_eq]
        simp [hn, hc]
    · have hcond : ¬ (0 < n ∧ n ≤ b.length) := fun hand => hc hand.2
      simp only [dif_neg hcond]
      refine ⟨by simp, by omega, by simp, ?_⟩
      exact (Nat.div_eq_of_lt (by omega)).symm

/-- Folding the capture callback over all chunks: as long as a frame is no
longer than the overflow bound plus one, the guard never discards data, so
the frames and residual exactly partition the input stream, every frame has
`n` bytes, and the count is `⌊totalBytes / n⌋`. -/
theorem runCapture_spec (n maxB : Nat) (hn : 0 < n) (hb : n ≤ maxB + 1)
    (chunks : List (List Nat)) :
    (runCapture n maxB chunks).1.flatten ++ (runCapture n maxB chunks).2 = chunks.flatten ∧
    ((runCapture n maxB chunks).2.length < n) ∧
    (∀ f ∈ (runCapture n maxB chunks).1, f.length = n) ∧
    (runCapture n maxB chunks).1.length = chunks.flatten.length / n := by
  suffices h : ∀ (acc : List (List Nat)) (buf : List Nat), buf.length < n →
      (chunks.foldl
        (fun acc data =>
          let res := applyChunk n maxB acc.2 data
          (acc.1 ++ res.1, res.2)) (acc, buf)).1.flatten ++
      (chunks.foldl
        (fun acc data =>
          let res := applyChunk n maxB acc.2 data
          (acc.1 ++ res.1, res.2)) (acc, buf)).2 = acc.flatten ++ buf ++ chunks.flatten ∧
      (chunks.foldl
        (fun acc data =>
          let res := applyChunk n maxB acc.2 data
          (acc.1 ++ res.1, res.2)) (acc, buf)).2.length < n ∧
      (∀ f ∈ (chunks.foldl
        (fun acc data =>
          let res := applyChunk n maxB acc.2 data
          (acc.1 ++ res.1, res.2)) (acc, buf)).1, f ∈ acc ∨ f.length = n) by
    have hmain := h [] [] (by simpa using hn)
    simp only [List.flatten_nil, List.nil_append] at hmain
    have hframes : ∀ f ∈ (runCapture n maxB chunks).1, f.length = n := by
      intro f hf
      rcases hmain.2.2 f hf with hfa | hfl
      · simp at hfa
      · exact hfl
    have hlen : (runCapture n maxB chunks).1.flatten.length +
        (runCapture n maxB chunks).2.length = chunks.flatten.length := by
      have := congrArg List.length hmain.1
      simpa [runCapture] using this
    have hmap : (runCapture n maxB chunks).1.map List.length =
        List.replicate (runCapture n maxB chunks).1.length n := by
      have hlenmap : ((runCapture n maxB chunks).1.map List.length).length =
          (runCapture n maxB chunks).1.length := by simp
      rw [← hlenmap]
      apply List.eq_replicate_of_mem
      intro b hbm
      rcases List.mem_map.mp hbm with ⟨f, hf, rfl⟩
      exact hframes f hf
    have hjoin : (runCapture n maxB chunks).1.flatten.length =
        (runCapture n maxB chunks).1.length * n := by
      rw [List.length_flatten, hmap, List.sum_replicate, smul_eq_mul]
    have hres : (runCapture n maxB chunks).2.length < n := by
      simpa [runCapture] using hmain.2.1
    refine ⟨hmain.1, hres, hframes, ?_⟩
    have hgoal : (runCapture n maxB chunks).2.length +
        n * (runCapture n maxB chunks).1.length = chunks.flatten.length := by
      rw [← hlen, hjoin]; ring
    rw [← hgoal, Nat.add_mul_div_left _ _ hn, Nat.div_eq_of_lt hres, Nat.zero_add]
  intro acc buf hbuf
  induction chunks generalizing acc buf with
  | nil =>
    refine ⟨by simp, hbuf, fun f hf => Or.inl hf⟩
  | cons data rest ih =>
    simp only [List.foldl_cons]
    have hs := sliceFrames_spec n hn (buf ++ data)
    have hnoguard : ¬ ((sliceFrames n (buf ++ data)).2.length > maxB) := by omega
    have happ : applyChunk n maxB buf data =
        ((sliceFrames n (buf ++ data)).1, (sliceFrames n (buf ++ data)).2) := by
      simp only [applyChunk, if_neg hnoguard]
    rw [happ]
    have hrec := ih (acc ++ (sliceFrames n (buf ++ data)).1) (sliceFrames n (buf ++ data)).2
      hs.2.1
    refine ⟨?_, hrec.2.1, ?_⟩
    · rw [hrec.1]
      simp only [List.flatten_append, List.append_assoc, List.flatten_cons]
      rw [← List.append_assoc (sliceFrames n (buf ++ data)).1.flatten _ _, hs.1]
      simp [List.append_assoc]
    · intro f hf
      rcases hrec.2.2 f hf with hfa | hfl
      · rcases List.mem_append.mp hfa with h | h
        · exact Or.inl h
        · exact Or.inr (hs.2.2.1 f h)
      · exact Or.inr hfl

/-! ## Claim C2 -/

/-- C2: for every stereo frame of true bytes, downmixing produces, at each
time index, the mean of the two channel samples rounded to a nearest integer
and clamped to the signed 16-bit range; in particular the pair
`(32767, -32768)` (bytes `FF 7F 00 80`) downmixes to `0` and `(32767, 32767)`
(bytes `FF 7F FF 7F`) downmixes to `32767`. -/
theorem C2_downmix_mean_round_clamp (buf : List Nat) (hb : ∀ b ∈ buf, b < 256) :
    List.Forall₂
      (fun m p => (2 * m - (p.1 + p.2)).natAbs ≤ 1 ∧ -32768 ≤ m ∧ m ≤ 32767)
      (decodeSamples (convertStereoToMono buf)) (decodePairs buf) ∧
    convertStereoToMono [255, 127, 0, 128] = [0, 0] ∧
    decodeSamples (convertStereoToMono [255, 127, 0, 128]) = [0] ∧
    convertStereoToMono [255, 127, 255, 127] = [255, 127] ∧
    decodeSamples (convertStereoToMono [255, 127, 255, 127]) = [32767] := by
  refine ⟨convertStereoToMono_forall buf hb, by decide, by decide, by decide, by decide⟩

/-- Witness for C2: the theorem applied to the concrete stereo frame holding
the single pair `(32767, -32768)`. -/
theorem C2_downmix_witness :
    (∀ b ∈ [255, 127, 0, 128], b < 256) ∧
    (List.Forall₂
      (fun m p => (2 * m - (p.1 + p.2)).natAbs ≤ 1 ∧ -32768 ≤ m ∧ m ≤ 32767)
      (decodeSamples (convertStereoToMono [255, 127, 0, 128]))
      (decodePairs [255, 127, 0, 128]) ∧
    convertStereoToMono [255, 127, 0, 128] = [0, 0] ∧
    decodeSamples (convertStereoToMono [255, 127, 0, 128]) = [0] ∧
    convertStereoToMono [255, 127, 255, 127] = [255, 127] ∧
    decodeSamples (convertStereoToMono [255, 127, 255, 127]) = [32767]) :=
  ⟨by decide, C2_downmix_mean_round_clamp [255, 127, 0, 128] (by decide)⟩

/-! ## Claim C6 -/

/-- C6: with the source constants (frame size 9600 bytes, one-second overflow
bound 96000 bytes), for every sequence of stdout chunks the assembler emits
exactly `⌊totalBytes / frameSize⌋` frames, each exactly `frameSize` bytes, in
input order: the emitted frames followed by the carried residual reconstruct
the concatenated input byte stream. -/
theorem C6_frame_assembler (chunks : List (List Nat)) :
    (runCapture CHUNK_SIZE maxBufferSize chunks).1.length =
      chunks.flatten.length / CHUNK_SIZE ∧
    (∀ f ∈ (runCapture CHUNK_SIZE maxBufferSize chunks).1, f.length = CHUNK_SIZE) ∧
    (runCapture CHUNK_SIZE maxBufferSize chunks).1.flatten ++
      (runCapture CHUNK_SIZE maxBufferSize chunks).2 = chunks.flatten := by
  have h := runCapture_spec CHUNK_SIZE maxBufferSize (by decide) (by decide) chunks
  exact ⟨h.2.2.2, h.2.2.1, h.1⟩

/-! ## Claim C7 -/

/-- C7: an enqueue whose trimmed text is shorter than 12 characters adds no
task; the trace of the promise chain over any queue factors around every
task, so task `i+1` begins only after the complete trace (start and
settlement) of task `i`, whatever the synthesis outcomes; and regardless of
which tasks fail, every queued task starts, in enqueue order. -/
theorem C7_synthesis_queue :
    (∀ (q : List String) (t : String), (jsTrim t).length < 12 → ttsEnqueue q t = q) ∧
    (∀ (outcome : String → Bool) (pre post : List String) (t : String),
      runChain outcome (pre ++ t :: post) =
        runChain outcome pre ++ taskTrace outcome t ++ runChain outcome post) ∧
    (∀ (outcome : String → Bool) (q : List String), startedTexts (runChain outcome q) = q) := by
  refine ⟨?_, ?_, ?_⟩
  · intro q t h
    unfold ttsEnqueue
    simp [h]
  · intro outcome pre post t
    induction pre with
    | nil => simp [runChain]
    | cons x xs ih => simp [runChain, ih]
  · intro outcome q
    induction q with
    | nil => simp [runChain, startedTexts]
    | cons t rest ih =>
      by_cases h : outcome t
      · simp [runChain, startedTexts, taskTrace, h] at ih ⊢
        exact ih
      · simp [runChain, startedTexts, taskTrace, h] at ih ⊢
        exact ih

/-- Witness for C7: the short text `"short"` is not enqueued. -/
theorem C7_synthesis_queue_witness :
    (jsTrim "short").length < 12 ∧ ttsEnqueue [] "short" = [] :=
  ⟨by decide, C7_synthesis_queue.1 [] "short" (by decide)⟩

/-! ## Supporting lemmas: conversation bookkeeping -/

/-- Full characterisation of the state after `saveConversationTurn`. -/
theorem saveConversationTurn_fst (now : Nat) (st : GeminiState) (tr ar : String) :
    (saveConversationTurn now st tr ar).1 =
      { st with
        currentSessionId :=
          if st.currentSessionId.isNone then some (Nat.repr now) else st.currentSessionId
        conversationHistory :=
          (if st.currentSessionId.isNone then [] else st.conversationHistory) ++
            [{ timestamp := now, transcription := jsTrim tr, ai_response := jsTrim ar }]
        lastProcessedTranscript :=
          if st.currentSessionId.isNone then "" else st.lastProcessedTranscript
        recentTranscripts :=
          if st.currentSessionId.isNone then [] else st.recentTranscripts } := by
  unfold saveConversationTurn initializeNewSession
  by_cases h : st.currentSessionId.isNone <;> simp [h]

/-- Full characterisation of the `save-conversation-turn` event. -/
theorem saveConversationTurn_snd (now : Nat) (st : GeminiState) (tr ar : String) :
    (saveConversationTurn now st tr ar).2 =
      { sessionId :=
          if st.currentSessionId.isNone then some (Nat.repr now) else st.currentSessionId
        turn := { timestamp := now, transcription := jsTrim tr, ai_response := jsTrim ar }
        fullHistory :=
          (if st.currentSessionId.isNone then [] else st.conversationHistory) ++
            [{ timestamp := now, transcription := jsTrim tr, ai_response := jsTrim ar }] } := by
  unfold saveConversationTurn initializeNewSession
  by_cases h : st.currentSessionId.isNone <;> simp [h]

/-- A generation failure or an empty reply leaves the state untouched and
only reports statuses. -/
theorem respondWithCerebras_noreply (now : Nat) (go : GenOutcome) (st : GeminiState)
    (t : String) (ss src : Option String) (h : go = .err ∨ go = .ok "") :
    respondWithCerebras now go st t ss src =
      (st, [Effect.updateStatus "Responding...",
            Effect.generateReply (cerebrasContext t ss),
            Effect.updateStatus "Listening..."]) := by
  rcases h with h | h <;> subst h <;> simp [respondWithCerebras]

/-- A successful generation appends a fresh turn via `saveConversationTurn`,
forwards the (possibly chat-tagged) reply, and queues TTS. -/
theorem respondWithCerebras_ok (now : Nat) (st : GeminiState) (t : String)
    (ss src : Option String) (r : String) (hr : r ≠ "") :
    respondWithCerebras now (.ok r) st t ss src =
      ({ (saveConversationTurn now st t r).1 with
         ttsQueue := ttsEnqueue (saveConversationTurn now st t r).1.ttsQueue r },
       [Effect.updateStatus "Responding...",
        Effect.generateReply (cerebrasContext t ss),
        (if src = some "chat" then Effect.updateResponseChat r else Effect.updateResponse r),
        Effect.saveTurn (saveConversationTurn now st t r).2] ++
       (if (jsTrim r).length < 12 then [] else [Effect.ttsEnqueued (jsTrim r)]) ++
       [Effect.updateStatus "Listening..."]) := by
  simp [respondWithCerebras, hr]

/-- Every drop branch of the transcript handler returns the state unchanged
with no effects. -/
theorem handleCartesiaTranscript_drop (announce ack : String → Bool) (now : Nat)
    (go : GenOutcome) (st : GeminiState) (raw : String) (im : Bool)
    (h : st.active = false ∨ cleanTranscript raw = "" ∨ (cleanTranscript raw).length < 4 ∨
         cleanTranscript raw = st.lastProcessedTranscript ∨
         st.recentTranscripts.contains (cleanTranscript raw) = true) :
    handleCartesiaTranscript announce ack now go st raw im = (st, []) := by
  simp only [handleCartesiaTranscript]
  by_cases h1 : st.active = false
  · rw [if_pos h1]
  · rw [if_neg h1]
    by_cases h2 : cleanTranscript raw = "" ∨ (cleanTranscript raw).length < 4
    · rw [if_pos h2]
    · rw [if_neg h2]
      by_cases h3 : cleanTranscript raw = st.lastProcessedTranscript
      · rw [if_pos h3]
      · rw [if_neg h3]
        by_cases h4 : st.recentTranscripts.contains (cleanTranscript raw) = true
        · rw [if_pos h4]
        · exfalso
          rcases h with h | h | h | h | h
          · exact h1 h
          · exact h2 (Or.inl h)
          · exact h2 (Or.inr h)
          · exact h3 h
          · exact h4 h

/-- A transcript of cleaned length below 15 never qualifies for an automatic
response: every branch of the classifier before the regex families already
answers `false`. -/
theorem shouldGenerateResponse_short (announce ack : String → Bool) (auto : Bool)
    (t : String) (h : t.length < 15) :
    shouldGenerateResponse announce ack auto t false = false := by
  unfold shouldGenerateResponse
  rw [if_neg (by simp)]
  cases auto with
  | false => rw [if_pos rfl]
  | true =>
    rw [if_neg (by simp)]
    by_cases htriv :
        ((words t).length ≤ 3 && trivialPhrases.contains (jsTrim (jsToLower t))) = true
    · rw [if_pos htriv]
    · rw [if_neg htriv, if_pos h]

/-! ## Claim C9 -/

/-- C9: saving a conversation turn with no session first initializes a fresh
session (id `Date.now().toString()`, empty history, cleared dedup state); in
every case the turn is appended under a non-null session id, and the emitted
`save-conversation-turn` event carries that session id together with the full
history, whose last element is the new turn. -/
theorem C9_save_initializes_session (now : Nat) (st : GeminiState) (tr ar : String) :
    (st.currentSessionId = none →
      (saveConversationTurn now st tr ar).1.currentSessionId = some (Nat.repr now) ∧
      (saveConversationTurn now st tr ar).1.conversationHistory =
        [{ timestamp := now, transcription := jsTrim tr, ai_response := jsTrim ar }] ∧
      (saveConversationTurn now st tr ar).1.lastProcessedTranscript = "" ∧
      (saveConversationTurn now st tr ar).1.recentTranscripts = []) ∧
    (saveConversationTurn now st tr ar).1.currentSessionId.isSome = true ∧
    (saveConversationTurn now st tr ar).2.sessionId =
      (saveConversationTurn now st tr ar).1.currentSessionId ∧
    (saveConversationTurn now st tr ar).2.fullHistory =
      (saveConversationTurn now st tr ar).1.conversationHistory ∧
    (saveConversationTurn now st tr ar).2.fullHistory.getLast? =
      some (saveConversationTurn now st tr ar).2.turn ∧
    (saveConversationTurn now st tr ar).2.turn =
      { timestamp := now, transcription := jsTrim tr, ai_response := jsTrim ar } := by
  rw [saveConversationTurn_fst, saveConversationTurn_snd]
  by_cases hn : st.currentSessionId.isNone
  · have hnone : st.currentSessionId = none := by
      cases hx : st.currentSessionId
      · rfl
      · rw [hx] at hn; simp at hn
    simp [hn]
  · have hsome : st.currentSessionId.isSome = true := by
      cases hx : st.currentSessionId
      · rw [hx] at hn; simp at hn
      · simp
    have hnone : st.currentSessionId.isNone = false := by
      cases hx : st.currentSessionId
      · rw [hx] at hn; simp at hn
      · simp
    refine ⟨?_, ?_⟩
    · intro hc
      rw [hc] at hnone
      simp at hnone
    · simp [hnone, hsome]

/-- Witness for C9: saving a turn on a state with no session id initializes
session `"7"` with exactly the new turn and cleared dedup state. -/
theorem C9_save_witness :
    (saveConversationTurn 7 noSessionState "Hello there" "").1.currentSessionId = some "7" ∧
    (saveConversationTurn 7 noSessionState "Hello there" "").1.conversationHistory =
      [{ timestamp := 7, transcription := jsTrim "Hello there", ai_response := jsTrim "" }] ∧
    (saveConversationTurn 7 noSessionState "Hello there" "").1.lastProcessedTranscript = "" ∧
    (saveConversationTurn 7 noSessionState "Hello there" "").1.recentTranscripts = [] :=
  (C9_save_initializes_session 7 noSessionState "Hello there" "").1 rfl

/-! ## Claim C8 -/

/-- C8: when the generator rejects or returns an empty reply, the
orchestrator leaves the state exactly as it was — no turn is created or
updated and nothing is queued for synthesis — and the last reported status is
`Listening...`. -/
theorem C8_failure_no_turn_no_tts (now : Nat) (go : GenOutcome) (st : GeminiState)
    (t : String) (ss src : Option String) (h : go = .err ∨ go = .ok "") :
    (respondWithCerebras now go st t ss src).1 = st ∧
    (∀ e ∈ (respondWithCerebras now go st t ss src).2,
      (∀ ev, e ≠ Effect.saveTurn ev) ∧ (∀ x, e ≠ Effect.ttsEnqueued x)) ∧
    (respondWithCerebras now go st t ss src).2.getLast? =
      some (Effect.updateStatus "Listening...") := by
  rw [respondWithCerebras_noreply now go st t ss src h]
  refine ⟨rfl, ?_, rfl⟩
  intro e he
  simp only [List.mem_cons, List.mem_singleton, List.not_mem_nil, or_false] at he
  rcases he with he | he | he <;> subst he <;>
    exact ⟨fun ev => by simp, fun x => by simp⟩

/-- Witness for C8: a rejected generation call on the fresh active state. -/
theorem C8_failure_witness :
    (respondWithCerebras 3 .err freshActiveState "Hello there friend" none none).1 =
      freshActiveState ∧
    (∀ e ∈ (respondWithCerebras 3 .err freshActiveState "Hello there friend" none none).2,
      (∀ ev, e ≠ Effect.saveTurn ev) ∧ (∀ x, e ≠ Effect.ttsEnqueued x)) ∧
    (respondWithCerebras 3 .err freshActiveState "Hello there friend" none none).2.getLast? =
      some (Effect.updateStatus "Listening...") :=
  C8_failure_no_turn_no_tts 3 .err freshActiveState "Hello there friend" none none (Or.inl rfl)

/-! ## Claim C1 -/

/-- C1 counterexample: on success the orchestrator does not update the turn
the gate created for the transcript — it appends a second one. Starting from
a log holding exactly the gate-created turn for
`"What is the answer to everything?"` (empty reply), a successful generation
leaves the log with two turns for that transcript, not one. -/
theorem C1_counterexample :
    ((respondWithCerebras 6 (.ok "It is forty-two, of course.") oneTurnState
        "What is the answer to everything?" none none).1.conversationHistory.filter
      (fun turn => turn.transcription = "What is the answer to everything?")).length = 2 := by
  decide

/-- C1 (amended): when reply generation succeeds, the orchestrator appends a
new `ConversationTurn` carrying the transcript and the reply (leaving every
earlier turn, including the gate-created one, untouched), forwards the reply
to the presentation layer (chat-tagged when the trigger source is manual
chat), and enqueues the reply text on the synthesis queue. -/
theorem C1_amended_success_appends_turn (now : Nat) (st : GeminiState) (t r : String)
    (ss src : Option String) (hr : r ≠ "") (hs : st.currentSessionId.isSome = true) :
    (respondWithCerebras now (.ok r) st t ss src).1.conversationHistory =
      st.conversationHistory ++
        [{ timestamp := now, transcription := jsTrim t, ai_response := jsTrim r }] ∧
    (Effect.updateResponse r ∈ (respondWithCerebras now (.ok r) st t ss src).2 ∨
     Effect.updateResponseChat r ∈ (respondWithCerebras now (.ok r) st t ss src).2) ∧
    (respondWithCerebras now (.ok r) st t ss src).1.ttsQueue =
      ttsEnqueue st.ttsQueue r := by
  rw [respondWithCerebras_ok now st t ss src r hr]
  have hnone : st.currentSessionId.isNone = false := by
    cases hx : st.currentSessionId
    · rw [hx] at hs; simp at hs
    · simp
  refine ⟨?_, ?_, ?_⟩
  · simp [saveConversationTurn_fst, hnone]
  · by_cases hsrc : src = some "chat"
    · right; simp [hsrc]
    · left; simp [hsrc]
  · simp [saveConversationTurn_fst, hnone]

/-- Witness for C1 (amended): a concrete successful generation on the fresh
active session. -/
theorem C1_amended_witness :
    (respondWithCerebras 6 (.ok "It is three in the afternoon.") freshActiveState
        "What time is it right now?" none none).1.conversationHistory =
      freshActiveState.conversationHistory ++
        [{ timestamp := 6, transcription := jsTrim "What time is it right now?",
           ai_response := jsTrim "It is three in the afternoon." }] ∧
    (Effect.updateResponse "It is three in the afternoon." ∈
        (respondWithCerebras 6 (.ok "It is three in the afternoon.") freshActiveState
          "What time is it right now?" none none).2 ∨
     Effect.updateResponseChat "It is three in the afternoon." ∈
        (respondWithCerebras 6 (.ok "It is three in the afternoon.") freshActiveState
          "What time is it right now?" none none).2) ∧
    (respondWithCerebras 6 (.ok "It is three in the afternoon.") freshActiveState
        "What time is it right now?" none none).1.ttsQueue =
      ttsEnqueue freshActiveState.ttsQueue "It is three in the afternoon." :=
  C1_amended_success_appends_turn 6 freshActiveState "What time is it right now?"
    "It is three in the afternoon." none none (by decide) rfl

/-- The session id after `saveConversationTurn` is always non-null. -/
theorem saveConversationTurn_isSome (now : Nat) (st : GeminiState) (tr ar : String) :
    (saveConversationTurn now st tr ar).1.currentSessionId.isSome = true := by
  rw [saveConversationTurn_fst]
  by_cases hn : st.currentSessionId.isNone
  · simp [hn]
  · cases hx : st.currentSessionId
    · rw [hx] at hn; simp at hn
    · simp [hx]

/-- With a live session, the responder never touches the session id, the
session flags, or the dedup state, whatever the generation outcome. -/
theorem respondWithCerebras_state_proj (now : Nat) (go : GenOutcome) (st : GeminiState)
    (t : String) (ss src : Option String) (hsid : st.currentSessionId.isSome = true) :
    (respondWithCerebras now go st t ss src).1.active = st.active ∧
    (respondWithCerebras now go st t ss src).1.lastProcessedTranscript =
      st.lastProcessedTranscript ∧
    (respondWithCerebras now go st t ss src).1.recentTranscripts = st.recentTranscripts ∧
    (respondWithCerebras now go st t ss src).1.currentSessionId = st.currentSessionId ∧
    (respondWithCerebras now go st t ss src).1.autoResponseEnabled =
      st.autoResponseEnabled := by
  have hnone : st.currentSessionId.isNone = false := by
    cases hx : st.currentSessionId
    · rw [hx] at hsid; simp at hsid
    · simp
  cases go with
  | err =>
    rw [respondWithCerebras_noreply now .err st t ss src (Or.inl rfl)]
    exact ⟨rfl, rfl, rfl, rfl, rfl⟩
  | ok r =>
    by_cases hr : r = ""
    · subst hr
      rw [respondWithCerebras_noreply now (.ok "") st t ss src (Or.inr rfl)]
      exact ⟨rfl, rfl, rfl, rfl, rfl⟩
    · rw [respondWithCerebras_ok now st t ss src r hr]
      simp [saveConversationTurn_fst, hnone]

/-- Projections of the transcript handler in the processed (non-dropped)
case, for a live session: the session stays active, the last-processed slot
now holds the cleaned transcript, the session id survives, and a
`save-conversation-turn` event was emitted. -/
theorem handleCartesiaTranscript_processed (announce ack : String → Bool) (now : Nat)
    (go : GenOutcome) (st : GeminiState) (raw : String) (im : Bool)
    (hact : st.active = true)
    (hlen : ¬(cleanTranscript raw = "" ∨ (cleanTranscript raw).length < 4))
    (hlast : cleanTranscript raw ≠ st.lastProcessedTranscript)
    (hmem : ¬(st.recentTranscripts.contains (cleanTranscript raw) = true))
    (hsid : st.currentSessionId.isSome = true) :
    (handleCartesiaTranscript announce ack now go st raw im).1.active = true ∧
    (handleCartesiaTranscript announce ack now go st raw im).1.lastProcessedTranscript =
      cleanTranscript raw ∧
    (handleCartesiaTranscript announce ack now go st raw im).1.currentSessionId.isSome = true ∧
    (∃ ev, Effect.saveTurn ev ∈ (handleCartesiaTranscript announce ack now go st raw im).2) := by
  have hact' : ¬(st.active = false) := by simp [hact]
  have hnone : st.currentSessionId.isNone = false := by
    cases hx : st.currentSessionId
    · rw [hx] at hsid; simp at hsid
    · simp
  have hne : st.currentSessionId ≠ none := by
    cases hx : st.currentSessionId
    · rw [hx] at hsid; simp at hsid
    · simp
  have hsave := saveConversationTurn_fst now (gateUpdate st (cleanTranscript raw))
    (cleanTranscript raw) ""
  have hsome := saveConversationTurn_isSome now (gateUpdate st (cleanTranscript raw))
    (cleanTranscript raw) ""
  simp only [handleCartesiaTranscript]
  rw [if_neg hact', if_neg hlen, if_neg hlast, if_neg hmem]
  split
  · -- classifier qualified: the responder runs on the saved state
    have hresp := respondWithCerebras_state_proj now go
      (saveConversationTurn now (gateUpdate st (cleanTranscript raw)) (cleanTranscript raw) "").1
      (cleanTranscript raw) none none hsome
    refine ⟨?_, ?_, ?_, ?_⟩
    · rw [hresp.1, hsave]
      simp [gateUpdate, hne, hact]
    · rw [hresp.2.1, hsave]
      simp [gateUpdate, hne]
    · rw [hresp.2.2.2.1]
      exact hsome
    · exact ⟨_, List.mem_cons_self _ _⟩
  · -- classifier declined: state is the saved state
    refine ⟨?_, ?_, ?_, ?_⟩
    · rw [hsave]
      simp [gateUpdate, hne, hact]
    · rw [hsave]
      simp [gateUpdate, hne]
    · exact hsome
    · exact ⟨_, List.mem_cons_self _ _⟩

/-! ## Claim C3 -/

/-- C3: a final (non-manual) transcript whose cleaned form is shorter than 15
characters never qualifies for a response — the classifier answers `false`
for any auto-response setting and any regex semantics — and the transcript
handler performs no reply-generation call for it. -/
theorem C3_short_transcript_no_response :
    (∀ (announce ack : String → Bool) (auto : Bool) (t : String),
       t.length < 15 → shouldGenerateResponse announce ack auto t false = false) ∧
    (∀ (announce ack : String → Bool) (now : Nat) (go : GenOutcome) (st : GeminiState)
       (raw : String),
       (cleanTranscript raw).length < 15 →
       ∀ e ∈ (handleCartesiaTranscript announce ack now go st raw false).2,
         ∀ ctx, e ≠ Effect.generateReply ctx) := by
  refine ⟨fun announce ack auto t h => shouldGenerateResponse_short announce ack auto t h, ?_⟩
  intro announce ack now go st raw hlen e he ctx
  by_cases h1 : st.active = false
  · rw [handleCartesiaTranscript_drop announce ack now go st raw false (Or.inl h1)] at he
    simp at he
  · by_cases h2 : cleanTranscript raw = "" ∨ (cleanTranscript raw).length < 4
    · rcases h2 with h2 | h2
      · rw [handleCartesiaTranscript_drop announce ack now go st raw false
          (Or.inr (Or.inl h2))] at he
        simp at he
      · rw [handleCartesiaTranscript_drop announce ack now go st raw false
          (Or.inr (Or.inr (Or.inl h2)))] at he
        simp at he
    · by_cases h3 : cleanTranscript raw = st.lastProcessedTranscript
      · rw [handleCartesiaTranscript_drop announce ack now go st raw false
          (Or.inr (Or.inr (Or.inr (Or.inl h3))))] at he
        simp at he
      · by_cases h4 : st.recentTranscripts.contains (cleanTranscript raw) = true
        · rw [handleCartesiaTranscript_drop announce ack now go st raw false
            (Or.inr (Or.inr (Or.inr (Or.inr h4))))] at he
          simp at he
        · simp only [handleCartesiaTranscript] at he
          rw [if_neg h1, if_neg h2, if_neg h3, if_neg h4] at he
          split at he
          · rename_i hcls
            rw [shouldGenerateResponse_short announce ack _ _ hlen] at hcls
            exact absurd hcls (by simp)
          · simp only [List.mem_cons, List.not_mem_nil, or_false] at he
            rcases he with he | he <;> subst he <;> simp

/-- Witness for C3: the cleaned transcript `"hello there"` (11 characters) is
classified as not response-worthy. -/
theorem C3_short_transcript_witness :
    ("hello there".length < 15) ∧
    shouldGenerateResponse (fun _ => false) (fun _ => false) true "hello there" false = false :=
  ⟨by decide, C3_short_transcript_no_response.1 (fun _ => false) (fun _ => false) true
    "hello there" (by decide)⟩

/-! ## Claim C4 -/

/-- C4: a cleaned final transcript equal to the last processed value or
present in the dedup window is dropped before any downstream effect — the
state (including the dedup state and the conversation log) is unchanged and
no effect is emitted; consequently, a qualifying transcript submitted twice
triggers a turn (`save-conversation-turn`) only on the first submission, and
the second submission is a complete no-op. -/
theorem C4_duplicates_dropped :
    (∀ (announce ack : String → Bool) (now : Nat) (go : GenOutcome) (st : GeminiState)
       (raw : String) (im : Bool),
       (cleanTranscript raw = st.lastProcessedTranscript ∨
        st.recentTranscripts.contains (cleanTranscript raw) = true) →
       handleCartesiaTranscript announce ack now go st raw im = (st, [])) ∧
    (∀ (announce ack : String → Bool) (now : Nat) (go go2 : GenOutcome) (st : GeminiState)
       (raw : String) (im im2 : Bool),
       st.active = true → st.currentSessionId.isSome = true →
       4 ≤ (cleanTranscript raw).length →
       cleanTranscript raw ≠ st.lastProcessedTranscript →
       st.recentTranscripts.contains (cleanTranscript raw) = false →
       (∃ ev, Effect.saveTurn ev ∈
          (handleCartesiaTranscript announce ack now go st raw im).2) ∧
       handleCartesiaTranscript announce ack now go2
           (handleCartesiaTranscript announce ack now go st raw im).1 raw im2 =
         ((handleCartesiaTranscript announce ack now go st raw im).1, [])) := by
  constructor
  · intro announce ack now go st raw im h
    rcases h with h | h
    · exact handleCartesiaTranscript_drop announce ack now go st raw im
        (Or.inr (Or.inr (Or.inr (Or.inl h))))
    · exact handleCartesiaTranscript_drop announce ack now go st raw im
        (Or.inr (Or.inr (Or.inr (Or.inr h))))
  · intro announce ack now go go2 st raw im im2 hact hsid hlen hlast hmem
    have hlen' : ¬(cleanTranscript raw = "" ∨ (cleanTranscript raw).length < 4) := by
      intro hx
      rcases hx with hx | hx
      · rw [hx] at hlen; simp at hlen
      · omega
    have hmem' : ¬(st.recentTranscripts.contains (cleanTranscript raw) = true) := by
      rw [hmem]; simp
    have hproc := handleCartesiaTranscript_processed announce ack now go st raw im
      hact hlen' hlast hmem' hsid
    refine ⟨hproc.2.2.2, ?_⟩
    exact handleCartesiaTranscript_drop announce ack now go2 _ raw im2
      (Or.inr (Or.inr (Or.inr (Or.inl hproc.2.1.symm))))

/-- Witness for C4: the transcript `"Hello there everyone"` resubmitted to a
state that has just processed it is dropped with no effect. -/
theorem C4_duplicates_witness :
    handleCartesiaTranscript (fun _ => false) (fun _ => false) 9 .err dupState
      "Hello there everyone" false = (dupState, []) :=
  C4_duplicates_dropped.1 (fun _ => false) (fun _ => false) 9 .err dupState
    "Hello there everyone" false (Or.inl (by decide))

/-- The dedup window after any handler invocation: unchanged (dropped input),
reset (a save on a session-less state re-initializes the session), or the
eviction-plus-insert update with a cleaned transcript of length at least 4. -/
theorem handleCartesiaTranscript_recent (announce ack : String → Bool) (now : Nat)
    (go : GenOutcome) (st : GeminiState) (raw : String) (im : Bool) :
    (handleCartesiaTranscript announce ack now go st raw im).1.recentTranscripts =
      st.recentTranscripts ∨
    (handleCartesiaTranscript announce ack now go st raw im).1.recentTranscripts = [] ∨
    ((handleCartesiaTranscript announce ack now go st raw im).1.recentTranscripts =
        dedupInsert st.recentTranscripts (cleanTranscript raw) ∧
      4 ≤ (cleanTranscript raw).length) := by
  by_cases h1 : st.active = false
  · rw [handleCartesiaTranscript_drop announce ack now go st raw im (Or.inl h1)]
    exact Or.inl rfl
  · by_cases h2 : cleanTranscript raw = "" ∨ (cleanTranscript raw).length < 4
    · rcases h2 with h2 | h2
      · rw [handleCartesiaTranscript_drop announce ack now go st raw im (Or.inr (Or.inl h2))]
        exact Or.inl rfl
      · rw [handleCartesiaTranscript_drop announce ack now go st raw im
          (Or.inr (Or.inr (Or.inl h2)))]
        exact Or.inl rfl
    · by_cases h3 : cleanTranscript raw = st.lastProcessedTranscript
      · rw [handleCartesiaTranscript_drop announce ack now go st raw im
          (Or.inr (Or.inr (Or.inr (Or.inl h3))))]
        exact Or.inl rfl
      · by_cases h4 : st.recentTranscripts.contains (cleanTranscript raw) = true
        · rw [handleCartesiaTranscript_drop announce ack now go st raw im
            (Or.inr (Or.inr (Or.inr (Or.inr h4))))]
          exact Or.inl rfl
        · have hlen4 : 4 ≤ (cleanTranscript raw).length := by
            push_neg at h2
            omega
          have hsave := saveConversationTurn_fst now (gateUpdate st (cleanTranscript raw))
            (cleanTranscript raw) ""
          have hsome := saveConversationTurn_isSome now (gateUpdate st (cleanTranscript raw))
            (cleanTranscript raw) ""
          have hrec : (saveConversationTurn now (gateUpdate st (cleanTranscript raw))
              (cleanTranscript raw) "").1.recentTranscripts =
              (if st.currentSessionId.isNone = true then []
               else dedupInsert st.recentTranscripts (cleanTranscript raw)) := by
            rw [hsave]
            by_cases hn : st.currentSessionId.isNone = true
            · simp [gateUpdate, hn]
            · simp [gateUpdate, hn]
          simp only [handleCartesiaTranscript]
          rw [if_neg h1, if_neg h2, if_neg h3, if_neg h4]
          split
          · have hresp := respondWithCerebras_state_proj now go
              (saveConversationTurn now (gateUpdate st (cleanTranscript raw))
                (cleanTranscript raw) "").1
              (cleanTranscript raw) none none hsome
            rw [hresp.2.2.1, hrec]
            by_cases hn : st.currentSessionId.isNone = true
            · rw [if_pos hn]
              exact Or.inr (Or.inl rfl)
            · rw [if_neg hn]
              exact Or.inr (Or.inr ⟨rfl, hlen4⟩)
          · rw [hrec]
            by_cases hn : st.currentSessionId.isNone = true
            · rw [if_pos hn]
              exact Or.inr (Or.inl rfl)
            · rw [if_neg hn]
              exact Or.inr (Or.inr ⟨rfl, hlen4⟩)

/-- The eviction-plus-insert update keeps the window at 13 entries or fewer
and keeps its entries non-empty, provided the inserted entry is non-empty. -/
theorem dedupInsert_bound (recent : List String) (cleaned : String)
    (hb : recent.length ≤ 13) (hne : ∀ x ∈ recent, x ≠ "") (hc : cleaned ≠ "") :
    (dedupInsert recent cleaned).length ≤ 13 ∧
    (∀ x ∈ dedupInsert recent cleaned, x ≠ "") := by
  unfold dedupInsert
  by_cases h : recent.length > 12
  · rw [if_pos h]
    cases recent with
    | nil => simp at h
    | cons first rest =>
      have hfirst : first ≠ "" := hne first (by simp)
      rw [show evictOldest (first :: rest) =
        if first ≠ "" then rest else first :: rest from rfl, if_pos hfirst]
      constructor
      · simp only [List.length_append, List.length_cons] at hb ⊢
        simp
        omega
      · intro x hx
        rcases List.mem_append.mp hx with hx | hx
        · exact hne x (by simp [hx])
        · simp at hx
          rw [hx]
          exact hc
  · rw [if_neg h]
    constructor
    · simp only [List.length_append, List.length_singleton]
      omega
    · intro x hx
      rcases List.mem_append.mp hx with hx | hx
      · exact hne x hx
      · simp at hx
        rw [hx]
        exact hc

/-- One handler invocation preserves the 13-entry bound and the non-empty
entries invariant of the dedup window. -/
theorem handle_recent_bound (announce ack : String → Bool) (now : Nat) (go : GenOutcome)
    (st : GeminiState) (raw : String) (im : Bool)
    (hb : st.recentTranscripts.length ≤ 13)
    (hne : ∀ x ∈ st.recentTranscripts, x ≠ "") :
    (handleCartesiaTranscript announce ack now go st raw im).1.recentTranscripts.length ≤ 13 ∧
    (∀ x ∈ (handleCartesiaTranscript announce ack now go st raw im).1.recentTranscripts,
      x ≠ "") := by
  rcases handleCartesiaTranscript_recent announce ack now go st raw im with h | h | ⟨h, hlen⟩
  · rw [h]; exact ⟨hb, hne⟩
  · rw [h]; simp
  · rw [h]
    refine dedupInsert_bound st.recentTranscripts (cleanTranscript raw) hb hne ?_
    intro hx
    rw [hx] at hlen
    simp at hlen

/-! ## Claim C5 -/

/-- C5 counterexample: thirteen distinct qualifying transcripts submitted to
a fresh session leave the dedup window holding 13 entries — more than the 12
the claim allows. -/
theorem C5_counterexample :
    (submitTranscripts thirteenTranscripts freshActiveState).recentTranscripts.length = 13 := by
  decide

/-- C5 (amended): the dedup window is bounded by 13, not 12 — the eviction
check `size > 12` runs before insertion, so the 13th distinct entry is
inserted without eviction and eviction first fires on the 14th. Precisely:
an insertion on a window of at most 12 entries evicts nothing; an insertion
on a larger window (13 entries, non-empty oldest) evicts the oldest (FIFO);
one handler step preserves the 13-entry bound (with non-empty entries); and
after any sequence of submissions to a fresh session the window holds at
most 13 entries. -/
theorem C5_amended_window_bound :
    (∀ (recent : List String) (cleaned : String),
       recent.length ≤ 12 → dedupInsert recent cleaned = recent ++ [cleaned]) ∧
    (∀ (recent : List String) (cleaned first : String) (rest : List String),
       recent = first :: rest → 12 < recent.length → first ≠ "" →
       dedupInsert recent cleaned = rest ++ [cleaned]) ∧
    (∀ (announce ack : String → Bool) (now : Nat) (go : GenOutcome) (st : GeminiState)
       (raw : String) (im : Bool),
       st.recentTranscripts.length ≤ 13 → (∀ x ∈ st.recentTranscripts, x ≠ "") →
       (handleCartesiaTranscript announce ack now go st raw im).1.recentTranscripts.length
         ≤ 13) ∧
    (∀ subs : List String,
       (submitTranscripts subs freshActiveState).recentTranscripts.length ≤ 13) := by
  refine ⟨?_, ?_, ?_, ?_⟩
  · intro recent cleaned hb
    unfold dedupInsert
    rw [if_neg (by omega)]
  · intro recent cleaned first rest hrec hgt hfirst
    unfold dedupInsert
    rw [if_pos hgt, hrec]
    rw [show evictOldest (first :: rest) =
      if first ≠ "" then rest else first :: rest from rfl, if_pos hfirst]
  · intro announce ack now go st raw im hb hne
    exact (handle_recent_bound announce ack now go st raw im hb hne).1
  · intro subs
    suffices H : ∀ (l : List String) (st : GeminiState),
        st.recentTranscripts.length ≤ 13 → (∀ x ∈ st.recentTranscripts, x ≠ "") →
        (submitTranscripts l st).recentTranscripts.length ≤ 13 ∧
        (∀ x ∈ (submitTranscripts l st).recentTranscripts, x ≠ "") by
      exact (H subs freshActiveState (by simp [freshActiveState])
        (by simp [freshActiveState])).1
    intro l
    induction l with
    | nil => intro st hb hne; exact ⟨hb, hne⟩
    | cons raw rest ih =>
      intro st hb hne
      have hstep := handle_recent_bound (fun _ => false) (fun _ => false) 0 .err st raw false
        hb hne
      exact ih _ hstep.1 hstep.2

/-- Witness for C5 (amended): the bound applied to the thirteen-transcript
run on the fresh session. -/
theorem C5_amended_witness :
    (submitTranscripts thirteenTranscripts freshActiveState).recentTranscripts.length ≤ 13 :=
  C5_amended_window_bound.2.2.2 thirteenTranscripts

/-! ## Claim C10 -/

/-- Every drop branch of the stale handler returns the state unchanged with
no effects. -/
theorem legacyHandle_drop (now : Nat) (go : GenOutcome) (st : GeminiState) (raw : String)
    (h : st.active = false ∨ cleanTranscript raw = "" ∨ (cleanTranscript raw).length < 4 ∨
         cleanTranscript raw = st.lastProcessedTranscript ∨
         st.recentTranscripts.contains (cleanTranscript raw) = true) :
    Legacy.handleCartesiaTranscript now go st raw = (st, []) := by
  simp only [Legacy.handleCartesiaTranscript]
  by_cases h1 : st.active = false
  · rw [if_pos h1]
  · rw [if_neg h1]
    by_cases h2 : cleanTranscript raw = "" ∨ (cleanTranscript raw).length < 4
    · rw [if_pos h2]
    · rw [if_neg h2]
      by_cases h3 : cleanTranscript raw = st.lastProcessedTranscript
      · rw [if_pos h3]
      · rw [if_neg h3]
        by_cases h4 : st.recentTranscripts.contains (cleanTranscript raw) = true
        · rw [if_pos h4]
        · exfalso
          rcases h with h | h | h | h | h
          · exact h1 h
          · exact h2 (Or.inl h)
          · exact h2 (Or.inr h)
          · exact h3 h
          · exact h4 h

/-- C10: the stale copy routes manual text through the transcript handler
and reports success unconditionally: with an active session and non-empty
text the IPC result is `{success: true}` even when the text is silently
dropped by the gate (cleaned length under 4, equal to the last processed
transcript, or present in the dedup window) — in that case the state is
entirely unchanged, yet the caller sees the same result as for a processed
submission. -/
theorem C10_manual_text_reports_success (now : Nat) (go : GenOutcome) (st : GeminiState)
    (text : String) (ha : st.active = true) (hne : jsTrim text ≠ "") :
    (Legacy.sendTextMessage now go st text).2 = { success := true, error := none } ∧
    ((cleanTranscript text).length < 4 ∨ cleanTranscript text = st.lastProcessedTranscript ∨
      st.recentTranscripts.contains (cleanTranscript text) = true →
      (Legacy.sendTextMessage now go st text).1 = st) := by
  have hcond1 : ¬(st.active = false) := by simp [ha]
  have hcond2 : ¬(text = "" ∨ jsTrim text = "") := by
    intro hx
    rcases hx with hx | hx
    · subst hx
      exact hne (by decide)
    · exact hne hx
  simp only [Legacy.sendTextMessage]
  rw [if_neg hcond1, if_neg hcond2]
  refine ⟨rfl, ?_⟩
  intro hdrop
  have hdropped : Legacy.handleCartesiaTranscript now go st text = (st, []) := by
    apply legacyHandle_drop
    rcases hdrop with h | h | h
    · exact Or.inr (Or.inr (Or.inl h))
    · exact Or.inr (Or.inr (Or.inr (Or.inl h)))
    · exact Or.inr (Or.inr (Or.inr (Or.inr h)))
  rw [hdropped]

/-- Witness for C10: resubmitting the already-processed text
`"Hello there everyone"` reports success while leaving the state untouched. -/
theorem C10_manual_text_witness :
    (Legacy.sendTextMessage 9 .err dupState "Hello there everyone").2 =
      { success := true, error := none } ∧
    (Legacy.sendTextMessage 9 .err dupState "Hello there everyone").1 = dupState :=
  ⟨(C10_manual_text_reports_success 9 .err dupState "Hello there everyone" rfl (by decide)).1,
   (C10_manual_text_reports_success 9 .err dupState "Hello there everyone" rfl (by decide)).2
     (Or.inr (Or.inl (by decide)))⟩

end Clue2
